import Mathlib

/-!
Verification of the WebSocket secure client protocol engine
(`src/include/server/ws/wss_client.h` and its framing layer).

Bytes are modelled as natural numbers; wherever the C++ code computes a
byte from wider arithmetic we take the value modulo 256 explicitly.
The per-frame random 4-byte masking key of the C++ code is modelled as
an explicit input (`MaskKey`), since its value is irrelevant to every
property below except through the bytes it contributes.
-/

namespace CppServerWS

/-- WebSocket opcodes (from the wire-format table: 0x0 continuation,
0x1 text, 0x2 binary, 0x8 close, 0x9 ping, 0xA pong). -/
def WS_TEXT : Nat := 1

def WS_BINARY : Nat := 2

def WS_CLOSE : Nat := 8

def WS_PING : Nat := 9

def WS_PONG : Nat := 10

/-- The per-frame 4-byte masking key, modelled as an explicit input in
place of the C++ non-cryptographic random source. -/
structure MaskKey where
  k0 : Nat
  k1 : Nat
  k2 : Nat
  k3 : Nat
deriving DecidableEq, Repr

/-- The key byte used at payload offset `i` (the key cycles every 4 bytes). -/
def MaskKey.byte (m : MaskKey) (i : Nat) : Nat :=
  match i % 4 with
  | 0 => m.k0
  | 1 => m.k1
  | 2 => m.k2
  | _ => m.k3

/-- XOR-mask a payload starting at offset `i`, cycling the key every 4 bytes. -/
def applyMaskFrom (m : MaskKey) : Nat → List Nat → List Nat
  | _, [] => []
  | i, b :: rest => (b ^^^ m.byte i) :: applyMaskFrom m (i + 1) rest

/-- XOR-mask a whole payload with the 4-byte key cycling from offset 0. -/
def applyMask (m : MaskKey) (payload : List Nat) : List Nat :=
  applyMaskFrom m 0 payload

/-- Modelled from the spec: the payload-length field of an encoded frame
(`FrameCodec.Encode`, implemented by `WebSocket::PrepareSendFrame`, whose
source is not under `src/`). Returns the 7-bit length field together with
the extended-length bytes: 0–125 literal, 126 ⇒ 16-bit big-endian length,
127 ⇒ 64-bit big-endian length. -/
def lenField (n : Nat) : Nat × List Nat :=
  if n ≤ 125 then (n, [])
  else if n ≤ 65535 then (126, [n / 256 % 256, n % 256])
  else (127, [n / 2 ^ 56 % 256, n / 2 ^ 48 % 256, n / 2 ^ 40 % 256, n / 2 ^ 32 % 256,
              n / 2 ^ 24 % 256, n / 2 ^ 16 % 256, n / 2 ^ 8 % 256, n % 256])

/-- Modelled from the spec: `FrameCodec.Encode` / `WebSocket::PrepareSendFrame`
(source not under `src/`). Header byte 0 is FIN(always 1)·RSV(0)·opcode;
header byte 1 is mask-bit(always 1 for the client) plus the 7-bit length
field; then the extended-length bytes, the 4-byte mask key, and the payload
XOR-masked with the key cycling every 4 bytes. For Close frames the 2-byte
big-endian status code is prepended to the payload before length
computation and masking (`status = none` means no status prefix). -/
def PrepareSendFrame (opcode : Nat) (status : Option Nat) (payload : List Nat)
    (m : MaskKey) : List Nat :=
  let body : List Nat :=
    match status with
    | none => payload
    | some s => s / 256 % 256 :: s % 256 :: payload
  let lf := lenField body.length
  (128 + opcode % 16) :: (128 + lf.1) :: lf.2 ++ [m.k0, m.k1, m.k2, m.k3] ++ applyMask m body

/-- A decoded WebSocket frame: fin flag, opcode, and (unmasked) payload.
For Close frames the payload still carries the 2-byte big-endian status
code as its first two bytes, as on the wire. -/
structure Frame where
  fin : Bool
  opcode : Nat
  payload : List Nat
deriving DecidableEq, Repr

/-- Decode failures, from the error-handling taxonomy: malformed frames
are fatal protocol errors. -/
inductive ProtocolError where
  | invalidOpcode (op : Nat)
  | lengthOverflow
  | truncatedHeader
  | truncatedPayload
deriving DecidableEq, Repr

/-- Modelled from the spec: parsing of the payload-length field by
`FrameCodec.Decode` (source not under `src/`), symmetric to `lenField`.
A 7-bit field of 126 consumes a 16-bit big-endian extended length, 127
consumes a 64-bit big-endian one; a 64-bit length with its most
significant bit set would overflow and is a protocol error; missing
extended-length bytes are a truncated header. -/
def parseLen (len7 : Nat) (rest : List Nat) : Except ProtocolError (Nat × List Nat) :=
  if len7 ≤ 125 then .ok (len7, rest)
  else if len7 = 126 then
    match rest with
    | e0 :: e1 :: r => .ok (e0 * 256 + e1, r)
    | _ => .error .truncatedHeader
  else
    match rest with
    | e0 :: e1 :: e2 :: e3 :: e4 :: e5 :: e6 :: e7 :: r =>
        let n := e0 * 2 ^ 56 + e1 * 2 ^ 48 + e2 * 2 ^ 40 + e3 * 2 ^ 32 +
                 e4 * 2 ^ 24 + e5 * 2 ^ 16 + e6 * 2 ^ 8 + e7
        if n < 2 ^ 63 then .ok (n, r) else .error .lengthOverflow
    | _ => .error .truncatedHeader

/-- Modelled from the spec: mask-key parsing by `FrameCodec.Decode`
(source not under `src/`). If the mask bit is set the next 4 bytes are
the masking key; unmasked frames (as servers send them) carry none. -/
def parseMask (maskBit : Bool) (rest : List Nat) :
    Except ProtocolError (Option MaskKey × List Nat) :=
  if maskBit then
    match rest with
    | k0 :: k1 :: k2 :: k3 :: r => .ok (some ⟨k0, k1, k2, k3⟩, r)
    | _ => .error .truncatedHeader
  else .ok (none, rest)

/-- Modelled from the spec: `FrameCodec.Decode` (source not under `src/`)
on a byte sequence whose prefix should form one complete frame. Returns
the frame and the leftover unconsumed bytes, or a `ProtocolError` for an
invalid opcode, an overflowing length field, or a truncated header.
Masked frames are unmasked with the transmitted key (masking is
symmetric); unmasked server frames are left untouched. -/
def decodeFrame (bytes : List Nat) : Except ProtocolError (Frame × List Nat) :=
  match bytes with
  | b0 :: b1 :: rest =>
      let op := b0 % 16
      if op = 0 ∨ op = 1 ∨ op = 2 ∨ op = 8 ∨ op = 9 ∨ op = 10 then
        match parseLen (b1 % 128) rest with
        | .error e => .error e
        | .ok (len, r1) =>
            match parseMask (decide (b1 / 128 % 2 = 1)) r1 with
            | .error e => .error e
            | .ok (mk, r2) =>
                if len ≤ r2.length then
                  let raw := r2.take len
                  let payload := match mk with
                    | none => raw
                    | some m => applyMask m raw
                  .ok ({ fin := decide (b0 / 128 % 2 = 1), opcode := op, payload := payload },
                       r2.drop len)
                else .error .truncatedPayload
      else .error (.invalidOpcode op)
  | _ => .error .truncatedHeader

theorem applyMaskFrom_length (m : MaskKey) (i : Nat) (l : List Nat) :
    (applyMaskFrom m i l).length = l.length := by
  induction l generalizing i with
  | nil => rfl
  | cons b rest ih => simp [applyMaskFrom, ih]

theorem applyMask_length (m : MaskKey) (l : List Nat) :
    (applyMask m l).length = l.length :=
  applyMaskFrom_length m 0 l

theorem applyMaskFrom_involutive (m : MaskKey) (i : Nat) (l : List Nat) :
    applyMaskFrom m i (applyMaskFrom m i l) = l := by
  induction l generalizing i with
  | nil => rfl
  | cons b rest ih => simp [applyMaskFrom, ih, Nat.xor_cancel_right]

theorem applyMask_involutive (m : MaskKey) (l : List Nat) :
    applyMask m (applyMask m l) = l :=
  applyMaskFrom_involutive m 0 l

theorem MaskKey.eta (m : MaskKey) : MaskKey.mk m.k0 m.k1 m.k2 m.k3 = m := rfl

theorem take_length_applyMask (m : MaskKey) (l : List Nat) :
    List.take l.length (applyMask m l) = applyMask m l := by
  rw [← applyMask_length m l]; exact List.take_length _

theorem drop_length_applyMask (m : MaskKey) (l : List Nat) :
    List.drop l.length (applyMask m l) = [] := by
  rw [← applyMask_length m l]; exact List.drop_length _

/-- Decoding inverts encoding for any frame whose body fits the 63-bit
length bound that the decoder enforces: one complete frame, the original
fin/opcode/payload, no leftover bytes. -/
theorem decode_PrepareSendFrame (op : Nat)
    (hop : op = 0 ∨ op = 1 ∨ op = 2 ∨ op = 8 ∨ op = 9 ∨ op = 10)
    (p : List Nat) (m : MaskKey) (hp : p.length < 2 ^ 63) :
    decodeFrame (PrepareSendFrame op none p m) =
      .ok ({ fin := true, opcode := op, payload := p }, []) := by
  have hop_lt : op < 16 := by rcases hop with rfl | rfl | rfl | rfl | rfl | rfl <;> decide
  have hb0 : (128 + op % 16) % 16 = op := by omega
  have hfin : (128 + op % 16) / 128 % 2 = 1 := by omega
  have hfin2 : (op % 16 / 128 + 1) % 2 = 1 := by omega
  have hfin3 : op % 16 / 128 = 0 := by omega
  by_cases h1 : p.length ≤ 125
  · have hm1 : (128 + p.length) % 128 = p.length := by omega
    have hm2 : p.length % 128 = p.length := by omega
    have hd1 : (128 + p.length) / 128 % 2 = 1 := by omega
    have hd2 : (p.length / 128 + 1) % 2 = 1 := by omega
    have hd3 : p.length / 128 = 0 := by omega
    simp [PrepareSendFrame, lenField, h1, decodeFrame, parseLen, parseMask,
          hb0, hfin, hfin2, hfin3, hop, hm1, hm2, hd1, hd2, hd3,
          MaskKey.eta, applyMask_length, take_length_applyMask, drop_length_applyMask,
          applyMask_involutive]
  · by_cases h2 : p.length ≤ 65535
    · have e : p.length / 256 % 256 * 256 + p.length % 256 = p.length := by omega
      simp [PrepareSendFrame, lenField, h1, h2, decodeFrame, parseLen, parseMask,
            hb0, hfin, hfin2, hfin3, hop, e,
            MaskKey.eta, applyMask_length, take_length_applyMask, drop_length_applyMask,
            applyMask_involutive]
    · have e : p.length / 72057594037927936 % 256 * 72057594037927936 +
          p.length / 281474976710656 % 256 * 281474976710656 +
          p.length / 1099511627776 % 256 * 1099511627776 +
          p.length / 4294967296 % 256 * 4294967296 +
          p.length / 16777216 % 256 * 16777216 +
          p.length / 65536 % 256 * 65536 +
          p.length / 256 % 256 * 256 + p.length % 256 = p.length := by omega
      have hp' : p.length < 9223372036854775808 := hp
      simp [PrepareSendFrame, lenField, h1, h2, decodeFrame, parseLen, parseMask,
            hb0, hfin, hfin2, hfin3, hop, e, hp',
            MaskKey.eta, applyMask_length, take_length_applyMask, drop_length_applyMask,
            applyMask_involutive]

/-- Claim C1: for every payload byte sequence P (of length representable by
the engine, i.e. below 2^63), decoding the frame produced by encoding
(Text, P) reconstructs exactly P: one complete Text frame with fin set,
payload equal to P, and no leftover bytes. Masking is symmetric, so the
mask key (an arbitrary `MaskKey`) does not affect the result. -/
theorem C1_decode_encode_text_roundtrip (p : List Nat) (m : MaskKey)
    (hp : p.length < 2 ^ 63) :
    decodeFrame (PrepareSendFrame WS_TEXT none p m) =
      .ok ({ fin := true, opcode := WS_TEXT, payload := p }, []) :=
  decode_PrepareSendFrame WS_TEXT (Or.inr (Or.inl rfl)) p m hp

/-- Witness for C1 at the concrete payload [65, 66, 67] and key (1,2,3,4). -/
theorem C1_witness :
    ([65, 66, 67] : List Nat).length < 2 ^ 63 ∧
    decodeFrame (PrepareSendFrame WS_TEXT none [65, 66, 67] ⟨1, 2, 3, 4⟩) =
      .ok ({ fin := true, opcode := WS_TEXT, payload := [65, 66, 67] }, []) :=
  ⟨by decide, C1_decode_encode_text_roundtrip [65, 66, 67] ⟨1, 2, 3, 4⟩ (by decide)⟩

/-- Claim C2: the encoder picks the length form by exact boundaries.
The encoded frame embeds `lenField` of the payload length verbatim
(first conjunct); payload length 0–125 is written as the literal 7-bit
field, length 126–65535 uses field value 126 followed by a 16-bit
big-endian length, and length ≥ 65536 uses field value 127 followed by a
64-bit big-endian length; lengths 0, 125, 126, 65535, 65536 use exactly
the literal, literal, 16-bit, 16-bit and 64-bit forms respectively. -/
theorem C2_length_field_boundaries (op : Nat) (p : List Nat) (m : MaskKey) :
    (PrepareSendFrame op none p m =
      (128 + op % 16) :: (128 + (lenField p.length).1) :: (lenField p.length).2 ++
        [m.k0, m.k1, m.k2, m.k3] ++ applyMask m p) ∧
    (p.length ≤ 125 → lenField p.length = (p.length, [])) ∧
    (126 ≤ p.length → p.length ≤ 65535 →
      lenField p.length = (126, [p.length / 256 % 256, p.length % 256])) ∧
    (65536 ≤ p.length →
      lenField p.length = (127,
        [p.length / 2 ^ 56 % 256, p.length / 2 ^ 48 % 256, p.length / 2 ^ 40 % 256,
         p.length / 2 ^ 32 % 256, p.length / 2 ^ 24 % 256, p.length / 2 ^ 16 % 256,
         p.length / 2 ^ 8 % 256, p.length % 256])) ∧
    (lenField 0).1 = 0 ∧ (lenField 125).1 = 125 ∧ (lenField 126).1 = 126 ∧
    (lenField 65535).1 = 126 ∧ (lenField 65536).1 = 127 := by
  refine ⟨rfl, ?_, ?_, ?_, by decide, by decide, by decide, by decide, by decide⟩
  · intro h1
    unfold lenField
    rw [if_pos h1]
  · intro h1 h2
    unfold lenField
    rw [if_neg (by omega), if_pos h2]
  · intro h1
    unfold lenField
    rw [if_neg (by omega), if_neg (by omega)]

/-- Witness for C2 at payloads of length 3, 200 and 65536. -/
theorem C2_witness :
    lenField (List.replicate 3 (0 : Nat)).length = ((List.replicate 3 (0 : Nat)).length, []) ∧
    lenField (List.replicate 200 (0 : Nat)).length =
      (126, [(List.replicate 200 (0 : Nat)).length / 256 % 256,
             (List.replicate 200 (0 : Nat)).length % 256]) ∧
    lenField (List.replicate 65536 (0 : Nat)).length =
      (127, [(List.replicate 65536 (0 : Nat)).length / 2 ^ 56 % 256,
             (List.replicate 65536 (0 : Nat)).length / 2 ^ 48 % 256,
             (List.replicate 65536 (0 : Nat)).length / 2 ^ 40 % 256,
             (List.replicate 65536 (0 : Nat)).length / 2 ^ 32 % 256,
             (List.replicate 65536 (0 : Nat)).length / 2 ^ 24 % 256,
             (List.replicate 65536 (0 : Nat)).length / 2 ^ 16 % 256,
             (List.replicate 65536 (0 : Nat)).length / 2 ^ 8 % 256,
             (List.replicate 65536 (0 : Nat)).length % 256]) :=
  ⟨(C2_length_field_boundaries 1 (List.replicate 3 0) ⟨0, 0, 0, 0⟩).2.1
     (by rw [List.length_replicate]; norm_num),
   (C2_length_field_boundaries 1 (List.replicate 200 0) ⟨0, 0, 0, 0⟩).2.2.1
     (by rw [List.length_replicate]; norm_num) (by rw [List.length_replicate]; norm_num),
   (C2_length_field_boundaries 1 (List.replicate 65536 0) ⟨0, 0, 0, 0⟩).2.2.2.1
     (by rw [List.length_replicate])⟩

/-- Connection lifecycle states, from the data model. -/
inductive ConnectionState where
  | Connecting
  | Open
  | ClosingLocal
  | ClosingRemote
  | Closed
deriving DecidableEq, Repr

/-- Observable actions of the engine toward its collaborators (the
transport and the owning client's error channel). -/
inductive EngineAction where
  | wsSend (bytes : List Nat)
  | wsSendAsync (bytes : List Nat)
  | transportDisconnect
  | raiseError (e : ProtocolError)
deriving DecidableEq, Repr

/-- Embedding of `WSSClient::Disconnect` (src/include/server/ws/wss_client.h:41):
`SendClose(1000, nullptr, 0)` — a synchronous send of the encoded
Close(1000) frame — followed by `HTTPSClient::Disconnect()`, whose boolean
result is returned. `sendResult` is the byte count `SendClose` returned and
`transportResult` the transport's disconnect result, both supplied by the
external transport. -/
def WSSClient.Disconnect (m : MaskKey) (sendResult : Nat) (transportResult : Bool) :
    List EngineAction × Bool :=
  ([.wsSend (PrepareSendFrame WS_CLOSE (some 1000) [] m), .transportDisconnect],
   transportResult)

/-- Embedding of `WSSClient::DisconnectAsync` (src/include/server/ws/wss_client.h:42):
`SendCloseAsync(1000, nullptr, 0)` followed by
`HTTPSClient::DisconnectAsync()`, whose boolean result is returned. -/
def WSSClient.DisconnectAsync (m : MaskKey) (sendAccepted : Bool) (transportResult : Bool) :
    List EngineAction × Bool :=
  ([.wsSendAsync (PrepareSendFrame WS_CLOSE (some 1000) [] m), .transportDisconnect],
   transportResult)

/-- The close status code carried by a frame's payload: its first two
bytes, big-endian, when present. -/
def closeStatus (f : Frame) : Option Nat :=
  match f.payload with
  | b0 :: b1 :: _ => some (b0 * 256 + b1)
  | _ => none

/-- The close reason carried by a frame's payload: everything after the
2-byte status code. -/
def closeReason (f : Frame) : List Nat :=
  f.payload.drop 2

/-- Claim C4: `Disconnect` first synchronously sends a Close frame with
status 1000 and empty reason, then closes the underlying transport; the
action trace is exactly these two steps — there is no step waiting for a
close echo from the remote, so `Disconnect` always makes forward
progress. The decoded Close frame indeed carries status 1000 and an empty
reason. -/
theorem C4_disconnect_close_then_teardown (m : MaskKey) (sendResult : Nat)
    (transportResult : Bool) :
    (WSSClient.Disconnect m sendResult transportResult).1 =
      [.wsSend (PrepareSendFrame WS_CLOSE (some 1000) [] m), .transportDisconnect] ∧
    decodeFrame (PrepareSendFrame WS_CLOSE (some 1000) [] m) =
      .ok ({ fin := true, opcode := WS_CLOSE, payload := [3, 232] }, []) ∧
    closeStatus { fin := true, opcode := WS_CLOSE, payload := [3, 232] } = some 1000 ∧
    closeReason { fin := true, opcode := WS_CLOSE, payload := [3, 232] } = [] := by
  refine ⟨rfl, ?_, by decide, by decide⟩
  have h : PrepareSendFrame WS_CLOSE (some 1000) [] m =
      PrepareSendFrame WS_CLOSE none [3, 232] m := rfl
  rw [h]
  exact decode_PrepareSendFrame WS_CLOSE (by decide) [3, 232] m (by decide)

/-- Modelled from the spec: the CloseNegotiator's reaction to a received
Close frame (the `WebSocket` engine's source is not under `src/`). While
Open, an echo Close carrying the received status code — or 1000 if the
received frame carried none — is sent before the transport is torn down,
and the state moves to ClosingRemote; in any other state nothing happens. -/
def onCloseFrameReceived (st : ConnectionState) (status : Option Nat) (m : MaskKey) :
    ConnectionState × List EngineAction :=
  match st with
  | .Open => (.ClosingRemote,
      [.wsSend (PrepareSendFrame WS_CLOSE (some (status.getD 1000)) [] m),
       .transportDisconnect])
  | _ => (st, [])

/-- Modelled from the spec: `onDisconnected` forces the connection state
to Closed once the transport confirms teardown (the handler's source is
not under `src/`). -/
def onDisconnected (st : ConnectionState) : ConnectionState :=
  .Closed

/-- Claim C5: a Close frame received while Open triggers an echo Close —
with the received status code when present (e.g. 1001), and 1000
otherwise — emitted before the transport teardown action, and after the
transport confirms teardown the state is Closed. -/
theorem C5_close_echo_before_teardown (status : Option Nat) (m : MaskKey) :
    (onCloseFrameReceived ConnectionState.Open status m).2 =
      [.wsSend (PrepareSendFrame WS_CLOSE (some (status.getD 1000)) [] m),
       .transportDisconnect] ∧
    (onCloseFrameReceived ConnectionState.Open (some 1001) m).2 =
      [.wsSend (PrepareSendFrame WS_CLOSE (some 1001) [] m), .transportDisconnect] ∧
    (onCloseFrameReceived ConnectionState.Open none m).2 =
      [.wsSend (PrepareSendFrame WS_CLOSE (some 1000) [] m), .transportDisconnect] ∧
    onDisconnected (onCloseFrameReceived ConnectionState.Open status m).1 =
      ConnectionState.Closed :=
  ⟨rfl, rfl, rfl, rfl⟩

/-- Modelled from the spec: the receive path's reaction to decoding one
byte sequence (the `WebSocket` engine's source is not under `src/`).
A decode failure raises the protocol error and tears the connection down;
it is never dropped, retried or repaired. A successful decode delivers
the frame together with the leftover bytes and performs no action. -/
def onReceivedBytes (st : ConnectionState) (bytes : List Nat) :
    ConnectionState × List EngineAction × Option (Frame × List Nat) :=
  match decodeFrame bytes with
  | .error e => (.Closed, [.raiseError e, .transportDisconnect], none)
  | .ok (f, rest) => (st, [], some (f, rest))

/-- Claim C6: whenever decoding fails, the connection is torn down — the
engine raises exactly the protocol error followed by transport teardown,
delivers nothing, and performs no retry or local repair (the action trace
contains nothing else). Inputs whose prefix is a malformed frame do fail:
an invalid opcode (e.g. 0x3) fails for every continuation of the input, a
lone header byte is a truncated header, and a 64-bit length field with
its most significant bit set is a length overflow. -/
theorem C6_decode_error_teardown (st : ConnectionState) (bytes : List Nat)
    (e : ProtocolError) (h : decodeFrame bytes = .error e) :
    onReceivedBytes st bytes = (.Closed, [.raiseError e, .transportDisconnect], none) ∧
    (∀ b1 r, decodeFrame (131 :: b1 :: r) = .error (.invalidOpcode 3)) ∧
    decodeFrame [129] = .error .truncatedHeader ∧
    (∀ r, decodeFrame (129 :: 255 :: 128 :: 0 :: 0 :: 0 :: 0 :: 0 :: 0 :: 0 :: r) =
      .error .lengthOverflow) := by
  refine ⟨?_, ?_, rfl, ?_⟩
  · simp [onReceivedBytes, h]
  · intro b1 r
    simp [decodeFrame]
  · intro r
    simp [decodeFrame, parseLen, parseMask]

/-- Witness for C6 at the concrete malformed input [131, 0]. -/
theorem C6_witness :
    decodeFrame [131, 0] = .error (.invalidOpcode 3) ∧
    onReceivedBytes ConnectionState.Open [131, 0] =
      (.Closed, [.raiseError (.invalidOpcode 3), .transportDisconnect], none) :=
  ⟨rfl, (C6_decode_error_teardown ConnectionState.Open [131, 0] (.invalidOpcode 3) rfl).1⟩

/-- The outcome of one decision round of a blocking receive call. -/
inductive ReceiveOutcome where
  | delivered (payload : List Nat)
  | empty
  | keepWaiting
deriving DecidableEq, Repr

/-- Modelled from the spec: the decision a blocking
`ReceiveText`/`ReceiveBinary` call makes when it inspects the receive
queue (`WSSClient::ReceiveText`'s source is not under `src/`): deliver
the queue head when the queue is non-empty; otherwise return the empty
result immediately when the connection is Closed; otherwise return the
empty result when the timeout has elapsed and keep waiting when it has
not. -/
def receivePoll (st : ConnectionState) (queue : List (List Nat)) (timedOut : Bool) :
    ReceiveOutcome :=
  match queue with
  | payload :: _ => .delivered payload
  | [] =>
      if st = ConnectionState.Closed then .empty
      else if timedOut then .empty
      else .keepWaiting

/-- Claim C7: with an empty queue, an elapsed timeout yields the empty
result (not an error — `ReceiveOutcome` has no error alternative) in
every connection state, and in the Closed state the call yields the empty
result even before any timeout has elapsed, i.e. immediately, rather than
blocking. -/
theorem C7_receive_timeout_empty (st : ConnectionState) (t : Bool) :
    receivePoll st [] true = .empty ∧
    receivePoll ConnectionState.Closed [] t = .empty := by
  constructor
  · by_cases h : st = ConnectionState.Closed <;> simp [receivePoll, h]
  · simp [receivePoll]

/-- The error classes of `asio`'s error codes as the engine uses them:
`asio::error::fault` is the single generic fault class; everything else
is some other code. -/
inductive FaultClass where
  | fault
  | other (code : Nat)
deriving DecidableEq, Repr

/-- One error surfaced on the owning client's error channel, as passed to
`onError(category, context, message)`. -/
structure ErrorEvent where
  fclass : FaultClass
  context : String
  message : String
deriving DecidableEq, Repr

/-- Embedding of `WSSClient::onWSError` (src/include/server/ws/wss_client.h:97): the
errors one call surfaces — a single call of
`onError(asio::error::fault, "WebSocket error", message)`. -/
def onWSError (message : String) : List ErrorEvent :=
  [{ fclass := .fault, context := "WebSocket error", message := message }]

/-- Claim C8: `onWSError` surfaces exactly one error per fault, with the
fixed generic fault class, the fixed context string "WebSocket error" and
the descriptive message; the action list contains no retry — nothing
beyond that single error. -/
theorem C8_onWSError_single_generic_error (msg : String) :
    onWSError msg = [{ fclass := .fault, context := "WebSocket error", message := msg }] ∧
    (onWSError msg).length = 1 :=
  ⟨rfl, rfl⟩

/-- Claim C10: the boolean returned by `Disconnect`/`DisconnectAsync` is
exactly the transport's disconnect result and is independent of the
result of the preceding `SendClose`/`SendCloseAsync` call (byte count
zero or not, async send accepted or rejected). -/
theorem C10_disconnect_result_ignores_sendclose (m : MaskKey) (r1 r2 : Nat)
    (a1 a2 t : Bool) :
    (WSSClient.Disconnect m r1 t).2 = t ∧
    (WSSClient.Disconnect m r1 t).2 = (WSSClient.Disconnect m r2 t).2 ∧
    (WSSClient.DisconnectAsync m a1 t).2 = t ∧
    (WSSClient.DisconnectAsync m a1 t).2 = (WSSClient.DisconnectAsync m a2 t).2 :=
  ⟨rfl, rfl, rfl, rfl⟩

/-- Embedding of `WSSClient::SendText` (const void*, size_t) overload
(src/include/server/ws/wss_client.h): the frame bytes built in
`_ws_send_buffer` by `PrepareSendFrame(WS_TEXT, ...)` and handed to
`HTTPSClient::Send`. -/
def SendText_buffer (bytes : List Nat) (m : MaskKey) : List Nat :=
  PrepareSendFrame WS_TEXT none bytes m

/-- Embedding of `WSSClient::SendText` std::string_view overload
(src/include/server/ws/wss_client.h): the frame bytes built in
`_ws_send_buffer` by `PrepareSendFrame(WS_TEXT, ...)` and handed to
`HTTPSClient::Send`. -/
def SendText_text (bytes : List Nat) (m : MaskKey) : List Nat :=
  PrepareSendFrame WS_TEXT none bytes m

/-- Embedding of `WSSClient::SendText` (const void*, size_t, Timespan) overload; the timeout is passed only to the transport's Send, not to frame construction
(src/include/server/ws/wss_client.h): the frame bytes built in
`_ws_send_buffer` by `PrepareSendFrame(WS_TEXT, ...)` and handed to
`HTTPSClient::Send`. -/
def SendText_buffer_timeout (bytes : List Nat) (m : MaskKey) (timeout : Nat) : List Nat :=
  PrepareSendFrame WS_TEXT none bytes m

/-- Embedding of `WSSClient::SendText` (std::string_view, Timespan) overload; the timeout is passed only to the transport's Send, not to frame construction
(src/include/server/ws/wss_client.h): the frame bytes built in
`_ws_send_buffer` by `PrepareSendFrame(WS_TEXT, ...)` and handed to
`HTTPSClient::Send`. -/
def SendText_text_timeout (bytes : List Nat) (m : MaskKey) (timeout : Nat) : List Nat :=
  PrepareSendFrame WS_TEXT none bytes m

/-- Embedding of `WSSClient::SendTextAsync` (const void*, size_t) overload
(src/include/server/ws/wss_client.h): the frame bytes built in
`_ws_send_buffer` by `PrepareSendFrame(WS_TEXT, ...)` and handed to
`HTTPSClient::SendAsync`. -/
def SendTextAsync_buffer (bytes : List Nat) (m : MaskKey) : List Nat :=
  PrepareSendFrame WS_TEXT none bytes m

/-- Embedding of `WSSClient::SendTextAsync` std::string_view overload
(src/include/server/ws/wss_client.h): the frame bytes built in
`_ws_send_buffer` by `PrepareSendFrame(WS_TEXT, ...)` and handed to
`HTTPSClient::SendAsync`. -/
def SendTextAsync_text (bytes : List Nat) (m : MaskKey) : List Nat :=
  PrepareSendFrame WS_TEXT none bytes m

/-- Embedding of `WSSClient::SendBinary` (const void*, size_t) overload
(src/include/server/ws/wss_client.h): the frame bytes built in
`_ws_send_buffer` by `PrepareSendFrame(WS_BINARY, ...)` and handed to
`HTTPSClient::Send`. -/
def SendBinary_buffer (bytes : List Nat) (m : MaskKey) : List Nat :=
  PrepareSendFrame WS_BINARY none bytes m

/-- Embedding of `WSSClient::SendBinary` std::string_view overload
(src/include/server/ws/wss_client.h): the frame bytes built in
`_ws_send_buffer` by `PrepareSendFrame(WS_BINARY, ...)` and handed to
`HTTPSClient::Send`. -/
def SendBinary_text (bytes : List Nat) (m : MaskKey) : List Nat :=
  PrepareSendFrame WS_BINARY none bytes m

/-- Embedding of `WSSClient::SendBinary` (const void*, size_t, Timespan) overload; the timeout is passed only to the transport's Send, not to frame construction
(src/include/server/ws/wss_client.h): the frame bytes built in
`_ws_send_buffer` by `PrepareSendFrame(WS_BINARY, ...)` and handed to
`HTTPSClient::Send`. -/
def SendBinary_buffer_timeout (bytes : List Nat) (m : MaskKey) (timeout : Nat) : List Nat :=
  PrepareSendFrame WS_BINARY none bytes m

/-- Embedding of `WSSClient::SendBinary` (std::string_view, Timespan) overload; the timeout is passed only to the transport's Send, not to frame construction
(src/include/server/ws/wss_client.h): the frame bytes built in
`_ws_send_buffer` by `PrepareSendFrame(WS_BINARY, ...)` and handed to
`HTTPSClient::Send`. -/
def SendBinary_text_timeout (bytes : List Nat) (m : MaskKey) (timeout : Nat) : List Nat :=
  PrepareSendFrame WS_BINARY none bytes m

/-- Embedding of `WSSClient::SendBinaryAsync` (const void*, size_t) overload
(src/include/server/ws/wss_client.h): the frame bytes built in
`_ws_send_buffer` by `PrepareSendFrame(WS_BINARY, ...)` and handed to
`HTTPSClient::SendAsync`. -/
def SendBinaryAsync_buffer (bytes : List Nat) (m : MaskKey) : List Nat :=
  PrepareSendFrame WS_BINARY none bytes m

/-- Embedding of `WSSClient::SendBinaryAsync` std::string_view overload
(src/include/server/ws/wss_client.h): the frame bytes built in
`_ws_send_buffer` by `PrepareSendFrame(WS_BINARY, ...)` and handed to
`HTTPSClient::SendAsync`. -/
def SendBinaryAsync_text (bytes : List Nat) (m : MaskKey) : List Nat :=
  PrepareSendFrame WS_BINARY none bytes m

/-- Embedding of `WSSClient::SendPing` (const void*, size_t) overload
(src/include/server/ws/wss_client.h): the frame bytes built in
`_ws_send_buffer` by `PrepareSendFrame(WS_PING, ...)` and handed to
`HTTPSClient::Send`. -/
def SendPing_buffer (bytes : List Nat) (m : MaskKey) : List Nat :=
  PrepareSendFrame WS_PING none bytes m

/-- Embedding of `WSSClient::SendPing` std::string_view overload
(src/include/server/ws/wss_client.h): the frame bytes built in
`_ws_send_buffer` by `PrepareSendFrame(WS_PING, ...)` and handed to
`HTTPSClient::Send`. -/
def SendPing_text (bytes : List Nat) (m : MaskKey) : List Nat :=
  PrepareSendFrame WS_PING none bytes m

/-- Embedding of `WSSClient::SendPing` (const void*, size_t, Timespan) overload; the timeout is passed only to the transport's Send, not to frame construction
(src/include/server/ws/wss_client.h): the frame bytes built in
`_ws_send_buffer` by `PrepareSendFrame(WS_PING, ...)` and handed to
`HTTPSClient::Send`. -/
def SendPing_buffer_timeout (bytes : List Nat) (m : MaskKey) (timeout : Nat) : List Nat :=
  PrepareSendFrame WS_PING none bytes m

/-- Embedding of `WSSClient::SendPing` (std::string_view, Timespan) overload; the timeout is passed only to the transport's Send, not to frame construction
(src/include/server/ws/wss_client.h): the frame bytes built in
`_ws_send_buffer` by `PrepareSendFrame(WS_PING, ...)` and handed to
`HTTPSClient::Send`. -/
def SendPing_text_timeout (bytes : List Nat) (m : MaskKey) (timeout : Nat) : List Nat :=
  PrepareSendFrame WS_PING none bytes m

/-- Embedding of `WSSClient::SendPingAsync` (const void*, size_t) overload
(src/include/server/ws/wss_client.h): the frame bytes built in
`_ws_send_buffer` by `PrepareSendFrame(WS_PING, ...)` and handed to
`HTTPSClient::SendAsync`. -/
def SendPingAsync_buffer (bytes : List Nat) (m : MaskKey) : List Nat :=
  PrepareSendFrame WS_PING none bytes m

/-- Embedding of `WSSClient::SendPingAsync` std::string_view overload
(src/include/server/ws/wss_client.h): the frame bytes built in
`_ws_send_buffer` by `PrepareSendFrame(WS_PING, ...)` and handed to
`HTTPSClient::SendAsync`. -/
def SendPingAsync_text (bytes : List Nat) (m : MaskKey) : List Nat :=
  PrepareSendFrame WS_PING none bytes m

/-- Embedding of `WSSClient::SendPong` (const void*, size_t) overload
(src/include/server/ws/wss_client.h): the frame bytes built in
`_ws_send_buffer` by `PrepareSendFrame(WS_PONG, ...)` and handed to
`HTTPSClient::Send`. -/
def SendPong_buffer (bytes : List Nat) (m : MaskKey) : List Nat :=
  PrepareSendFrame WS_PONG none bytes m

/-- Embedding of `WSSClient::SendPong` std::string_view overload
(src/include/server/ws/wss_client.h): the frame bytes built in
`_ws_send_buffer` by `PrepareSendFrame(WS_PONG, ...)` and handed to
`HTTPSClient::Send`. -/
def SendPong_text (bytes : List Nat) (m : MaskKey) : List Nat :=
  PrepareSendFrame WS_PONG none bytes m

/-- Embedding of `WSSClient::SendPong` (const void*, size_t, Timespan) overload; the timeout is passed only to the transport's Send, not to frame construction
(src/include/server/ws/wss_client.h): the frame bytes built in
`_ws_send_buffer` by `PrepareSendFrame(WS_PONG, ...)` and handed to
`HTTPSClient::Send`. -/
def SendPong_buffer_timeout (bytes : List Nat) (m : MaskKey) (timeout : Nat) : List Nat :=
  PrepareSendFrame WS_PONG none bytes m

/-- Embedding of `WSSClient::SendPong` (std::string_view, Timespan) overload; the timeout is passed only to the transport's Send, not to frame construction
(src/include/server/ws/wss_client.h): the frame bytes built in
`_ws_send_buffer` by `PrepareSendFrame(WS_PONG, ...)` and handed to
`HTTPSClient::Send`. -/
def SendPong_text_timeout (bytes : List Nat) (m : MaskKey) (timeout : Nat) : List Nat :=
  PrepareSendFrame WS_PONG none bytes m

/-- Embedding of `WSSClient::SendPongAsync` (const void*, size_t) overload
(src/include/server/ws/wss_client.h): the frame bytes built in
`_ws_send_buffer` by `PrepareSendFrame(WS_PONG, ...)` and handed to
`HTTPSClient::SendAsync`. -/
def SendPongAsync_buffer (bytes : List Nat) (m : MaskKey) : List Nat :=
  PrepareSendFrame WS_PONG none bytes m

/-- Embedding of `WSSClient::SendPongAsync` std::string_view overload
(src/include/server/ws/wss_client.h): the frame bytes built in
`_ws_send_buffer` by `PrepareSendFrame(WS_PONG, ...)` and handed to
`HTTPSClient::SendAsync`. -/
def SendPongAsync_text (bytes : List Nat) (m : MaskKey) : List Nat :=
  PrepareSendFrame WS_PONG none bytes m

/-- Embedding of `WSSClient::SendClose` (int, const void*, size_t) overload
(src/include/server/ws/wss_client.h): the frame bytes built in
`_ws_send_buffer` by `PrepareSendFrame(WS_CLOSE, ..., status)` and handed
to `HTTPSClient::Send`. -/
def SendClose_buffer (status : Nat) (bytes : List Nat) (m : MaskKey) : List Nat :=
  PrepareSendFrame WS_CLOSE (some status) bytes m

/-- Embedding of `WSSClient::SendClose` (int, std::string_view) overload
(src/include/server/ws/wss_client.h): the frame bytes built in
`_ws_send_buffer` by `PrepareSendFrame(WS_CLOSE, ..., status)` and handed
to `HTTPSClient::Send`. -/
def SendClose_text (status : Nat) (bytes : List Nat) (m : MaskKey) : List Nat :=
  PrepareSendFrame WS_CLOSE (some status) bytes m

/-- Embedding of `WSSClient::SendClose` (int, const void*, size_t, Timespan) overload; the timeout is passed only to the transport's Send
(src/include/server/ws/wss_client.h): the frame bytes built in
`_ws_send_buffer` by `PrepareSendFrame(WS_CLOSE, ..., status)` and handed
to `HTTPSClient::Send`. -/
def SendClose_buffer_timeout (status : Nat) (bytes : List Nat) (m : MaskKey) (timeout : Nat) : List Nat :=
  PrepareSendFrame WS_CLOSE (some status) bytes m

/-- Embedding of `WSSClient::SendClose` (int, std::string_view, Timespan) overload; the timeout is passed only to the transport's Send
(src/include/server/ws/wss_client.h): the frame bytes built in
`_ws_send_buffer` by `PrepareSendFrame(WS_CLOSE, ..., status)` and handed
to `HTTPSClient::Send`. -/
def SendClose_text_timeout (status : Nat) (bytes : List Nat) (m : MaskKey) (timeout : Nat) : List Nat :=
  PrepareSendFrame WS_CLOSE (some status) bytes m

/-- Embedding of `WSSClient::SendCloseAsync` (int, const void*, size_t) overload
(src/include/server/ws/wss_client.h): the frame bytes built in
`_ws_send_buffer` by `PrepareSendFrame(WS_CLOSE, ..., status)` and handed
to `HTTPSClient::SendAsync`. -/
def SendCloseAsync_buffer (status : Nat) (bytes : List Nat) (m : MaskKey) : List Nat :=
  PrepareSendFrame WS_CLOSE (some status) bytes m

/-- Embedding of `WSSClient::SendCloseAsync` (int, std::string_view) overload
(src/include/server/ws/wss_client.h): the frame bytes built in
`_ws_send_buffer` by `PrepareSendFrame(WS_CLOSE, ..., status)` and handed
to `HTTPSClient::SendAsync`. -/
def SendCloseAsync_text (status : Nat) (bytes : List Nat) (m : MaskKey) : List Nat :=
  PrepareSendFrame WS_CLOSE (some status) bytes m

/-- Claim C9: for each send operation, all of its overloads construct the
identical frame in the shared send buffer for equal payload bytes (and,
for SendClose, equal status): the (buffer, size) overload, the
string_view overload and the timeout overloads of
SendText/SendBinary/SendPing/SendPong/SendClose, and their Async
counterparts, all hand identical bytes to the transport; the timeout
affects only the transport call, never the frame. -/
theorem C9_send_overloads_equivalent (bytes : List Nat) (m : MaskKey)
    (tmo status : Nat) :
    SendText_buffer bytes m = SendText_text bytes m ∧
    SendText_buffer_timeout bytes m tmo = SendText_buffer bytes m ∧
    SendText_text_timeout bytes m tmo = SendText_buffer bytes m ∧
    SendTextAsync_buffer bytes m = SendText_buffer bytes m ∧
    SendTextAsync_text bytes m = SendText_buffer bytes m ∧
    SendBinary_buffer bytes m = SendBinary_text bytes m ∧
    SendBinary_buffer_timeout bytes m tmo = SendBinary_buffer bytes m ∧
    SendBinary_text_timeout bytes m tmo = SendBinary_buffer bytes m ∧
    SendBinaryAsync_buffer bytes m = SendBinary_buffer bytes m ∧
    SendBinaryAsync_text bytes m = SendBinary_buffer bytes m ∧
    SendPing_buffer bytes m = SendPing_text bytes m ∧
    SendPing_buffer_timeout bytes m tmo = SendPing_buffer bytes m ∧
    SendPing_text_timeout bytes m tmo = SendPing_buffer bytes m ∧
    SendPingAsync_buffer bytes m = SendPing_buffer bytes m ∧
    SendPingAsync_text bytes m = SendPing_buffer bytes m ∧
    SendPong_buffer bytes m = SendPong_text bytes m ∧
    SendPong_buffer_timeout bytes m tmo = SendPong_buffer bytes m ∧
    SendPong_text_timeout bytes m tmo = SendPong_buffer bytes m ∧
    SendPongAsync_buffer bytes m = SendPong_buffer bytes m ∧
    SendPongAsync_text bytes m = SendPong_buffer bytes m ∧
    SendClose_buffer status bytes m = SendClose_text status bytes m ∧
    SendClose_buffer_timeout status bytes m tmo = SendClose_buffer status bytes m ∧
    SendClose_text_timeout status bytes m tmo = SendClose_buffer status bytes m ∧
    SendCloseAsync_buffer status bytes m = SendClose_buffer status bytes m ∧
    SendCloseAsync_text status bytes m = SendClose_buffer status bytes m :=
  ⟨rfl, rfl, rfl, rfl, rfl, rfl, rfl, rfl, rfl, rfl, rfl, rfl, rfl, rfl, rfl, rfl, rfl, rfl, rfl, rfl, rfl, rfl, rfl, rfl, rfl⟩

/-- A sending thread's position in the send path of a
`Send*`/`SendAsync*` call: before the `scoped_lock` on `_ws_send_lock`,
inside the critical region (some bytes of its frame already handed over,
the rest still to write), or finished. -/
inductive SendPhase where
  | ready (frame : List Nat)
  | inCritical (written : List Nat) (remaining : List Nat)
  | finished (frame : List Nat)
deriving DecidableEq, Repr

/-- State of two threads concurrently calling send operations on one
client: who (if anyone) holds `_ws_send_lock`, the byte stream the
transport has observed so far, and each thread's phase. Thread A is
`false`, thread B is `true`. -/
structure GateState where
  holder : Option Bool
  wire : List Nat
  tA : SendPhase
  tB : SendPhase
deriving DecidableEq, Repr

/-- Interleaving semantics of the send gate
(src/include/server/ws/wss_client.h:45-82): every `Send*`/`SendAsync*`
overload runs `scoped_lock locker(_ws_send_lock); PrepareSendFrame(...);
Send(...)`, so a thread acquires the mutex only when free, hands its
frame's bytes to the transport one at a time while holding it, and
releases it when its frame is fully transferred. -/
inductive GateStep : GateState → GateState → Prop where
  | acquireA (f w : List Nat) (p : SendPhase) :
      GateStep ⟨none, w, .ready f, p⟩ ⟨some false, w, .inCritical [] f, p⟩
  | acquireB (f w : List Nat) (p : SendPhase) :
      GateStep ⟨none, w, p, .ready f⟩ ⟨some true, w, p, .inCritical [] f⟩
  | writeA (w written : List Nat) (b : Nat) (rest : List Nat) (p : SendPhase) :
      GateStep ⟨some false, w, .inCritical written (b :: rest), p⟩
               ⟨some false, w ++ [b], .inCritical (written ++ [b]) rest, p⟩
  | writeB (w written : List Nat) (b : Nat) (rest : List Nat) (p : SendPhase) :
      GateStep ⟨some true, w, p, .inCritical written (b :: rest)⟩
               ⟨some true, w ++ [b], p, .inCritical (written ++ [b]) rest⟩
  | releaseA (w written : List Nat) (p : SendPhase) :
      GateStep ⟨some false, w, .inCritical written [], p⟩
               ⟨none, w, .finished written, p⟩
  | releaseB (w written : List Nat) (p : SendPhase) :
      GateStep ⟨some true, w, p, .inCritical written []⟩
               ⟨none, w, p, .finished written⟩

/-- Initial state: nobody holds the lock, nothing on the wire, thread A
about to send frame `f1` and thread B frame `f2`. -/
def initGate (f1 f2 : List Nat) : GateState :=
  ⟨none, [], .ready f1, .ready f2⟩

/-- The states reachable from `initGate f1 f2` by gate steps. -/
def GateReachable (f1 f2 : List Nat) (s : GateState) : Prop :=
  Relation.ReflTransGen GateStep (initGate f1 f2) s

/-- The bytes a thread has contributed to the wire so far. -/
def contrib : SendPhase → List Nat
  | .ready _ => []
  | .inCritical written _ => written
  | .finished f => f

/-- The full frame a thread is sending. -/
def frameOf : SendPhase → List Nat
  | .ready f => f
  | .inCritical written remaining => written ++ remaining
  | .finished f => f

/-- A thread outside the critical region. -/
def notCrit : SendPhase → Prop
  | .inCritical _ _ => False
  | _ => True

/-- Gate invariant: each thread's phase still carries its original frame;
the lock holder (and only it) is in the critical region; the wire is the
non-holder's completed contribution followed by the holder's partial one
(in either order when the lock is free). -/
def GateInv (f1 f2 : List Nat) (s : GateState) : Prop :=
  frameOf s.tA = f1 ∧ frameOf s.tB = f2 ∧
  (match s.holder with
   | some false => (∃ w r, s.tA = .inCritical w r) ∧ notCrit s.tB ∧
       s.wire = contrib s.tB ++ contrib s.tA
   | some true => (∃ w r, s.tB = .inCritical w r) ∧ notCrit s.tA ∧
       s.wire = contrib s.tA ++ contrib s.tB
   | none => notCrit s.tA ∧ notCrit s.tB ∧
       (s.wire = contrib s.tA ++ contrib s.tB ∨ s.wire = contrib s.tB ++ contrib s.tA))

theorem gateInv_init (f1 f2 : List Nat) : GateInv f1 f2 (initGate f1 f2) := by
  simp [GateInv, initGate, frameOf, notCrit, contrib]

theorem gateInv_step (f1 f2 : List Nat) (s s' : GateState)
    (hinv : GateInv f1 f2 s) (hstep : GateStep s s') : GateInv f1 f2 s' := by
  obtain ⟨hA, hB, hrest⟩ := hinv
  cases hstep with
  | acquireA f w p =>
      simp only [GateInv, frameOf, notCrit, contrib] at *
      exact ⟨hA, hB, ⟨[], ⟨f, rfl⟩⟩, hrest.2.1, by rcases hrest.2.2 with h | h <;> simp_all⟩
  | acquireB f w p =>
      simp only [GateInv, frameOf, notCrit, contrib] at *
      exact ⟨hA, hB, ⟨[], ⟨f, rfl⟩⟩, hrest.1, by rcases hrest.2.2 with h | h <;> simp_all⟩
  | writeA w written b rest p =>
      simp only [GateInv, frameOf, notCrit, contrib] at *
      refine ⟨by rw [← hA]; simp, hB, ⟨written ++ [b], ⟨rest, rfl⟩⟩, hrest.2.1, ?_⟩
      rw [hrest.2.2, List.append_assoc]
  | writeB w written b rest p =>
      simp only [GateInv, frameOf, notCrit, contrib] at *
      refine ⟨hA, by rw [← hB]; simp, ⟨written ++ [b], ⟨rest, rfl⟩⟩, hrest.2.1, ?_⟩
      rw [hrest.2.2, List.append_assoc]
  | releaseA w written p =>
      simp only [GateInv, frameOf, notCrit, contrib] at *
      exact ⟨by simpa using hA, hB, trivial, hrest.2.1, Or.inr hrest.2.2⟩
  | releaseB w written p =>
      simp only [GateInv, frameOf, notCrit, contrib] at *
      exact ⟨hA, by simpa using hB, hrest.2.1, trivial, Or.inl hrest.2.2⟩

theorem gateInv_reachable (f1 f2 : List Nat) (s : GateState)
    (h : GateReachable f1 f2 s) : GateInv f1 f2 s := by
  induction h with
  | refl => exact gateInv_init f1 f2
  | tail hsteps hstep ih => exact gateInv_step f1 f2 _ _ ih hstep

/-- Claim C3: the send gate gives the `Send*`/`SendAsync*` operations of
one client mutual exclusion over the encode-and-send region — in every
reachable interleaving of two concurrent send calls, at most one thread
is inside the critical region — and once both sends have finished the
transport has observed exactly the two complete frames, never
interleaved, in one of the two orders. -/
theorem C3_sendgate_mutual_exclusion (f1 f2 : List Nat) (s : GateState)
    (h : GateReachable f1 f2 s) :
    (¬ ((∃ w r, s.tA = SendPhase.inCritical w r) ∧
        (∃ w r, s.tB = SendPhase.inCritical w r))) ∧
    ((∃ a, s.tA = SendPhase.finished a) → (∃ b, s.tB = SendPhase.finished b) →
      s.wire = f1 ++ f2 ∨ s.wire = f2 ++ f1) := by
  have hinv := gateInv_reachable f1 f2 s h
  obtain ⟨hA, hB, hrest⟩ := hinv
  constructor
  · rintro ⟨⟨wa, ra, hwa⟩, ⟨wb, rb, hwb⟩⟩
    match hh : s.holder with
    | some false => rw [hh] at hrest; rw [hwb] at hrest; exact hrest.2.1
    | some true => rw [hh] at hrest; rw [hwa] at hrest; exact hrest.2.1
    | none => rw [hh] at hrest; rw [hwa] at hrest; exact hrest.1
  · rintro ⟨a, ha⟩ ⟨b, hb⟩
    match hh : s.holder with
    | some false =>
        rw [hh] at hrest
        obtain ⟨⟨w, r, hw⟩, _, _⟩ := hrest
        rw [ha] at hw
        exact absurd hw (by simp)
    | some true =>
        rw [hh] at hrest
        obtain ⟨⟨w, r, hw⟩, _, _⟩ := hrest
        rw [hb] at hw
        exact absurd hw (by simp)
    | none =>
        rw [hh] at hrest
        rw [ha] at hA hrest
        rw [hb] at hB hrest
        simp only [frameOf] at hA hB
        simp only [contrib] at hrest
        rw [hA, hB] at hrest
        exact hrest.2.2

/-- Witness for C3: the interleaving where thread A sends [1] completely
and then thread B sends [2]; the wire reads [1] ++ [2]. -/
theorem C3_witness :
    (¬ ((∃ w r, (SendPhase.finished [1]) = SendPhase.inCritical w r) ∧
        (∃ w r, (SendPhase.finished [2]) = SendPhase.inCritical w r))) ∧
    (([1, 2] : List Nat) = [1] ++ [2] ∨ ([1, 2] : List Nat) = [2] ++ [1]) := by
  have h : GateReachable [1] [2] ⟨none, [1, 2], .finished [1], .finished [2]⟩ := by
    refine Relation.ReflTransGen.tail (Relation.ReflTransGen.tail
      (Relation.ReflTransGen.tail (Relation.ReflTransGen.tail
        (Relation.ReflTransGen.tail (Relation.ReflTransGen.tail
          Relation.ReflTransGen.refl
          (GateStep.acquireA [1] [] (.ready [2])))
          (GateStep.writeA [] [] 1 [] (.ready [2])))
          (GateStep.releaseA [1] [1] (.ready [2])))
          (GateStep.acquireB [2] [1] (.finished [1])))
          (GateStep.writeB [1] [] 2 [] (.finished [1])))
          (GateStep.releaseB [1, 2] [2] (.finished [1]))
  have hc := C3_sendgate_mutual_exclusion [1] [2] _ h
  exact ⟨hc.1, hc.2 ⟨[1], rfl⟩ ⟨[2], rfl⟩⟩

end CppServerWS
